import Mathlib

/-!
Shallow embedding of the go-monitor library (metric pipeline, configuration
validation, poll statistics, and the monitor runtime), together with proofs
of the specified behavioural properties.

Durations are modelled as `Int` nanoseconds, mirroring Go's `time.Duration`
(an `int64`).  Fallible Go functions returning `error` are modelled with
`Option String` (`none` = nil error) or `Except String`.
-/

namespace GoMonitor

/-- One second in nanoseconds, as in Go's `time.Second`. -/
def nsPerSecond : Int := 1000000000

/-- Field values stored in a metric's field map (`map[string]interface{}`
restricted to the cases handled by `formatFieldValue`). -/
inductive FieldValue where
  | floatVal (v : ℚ)
  | intVal (v : ℤ)
  | uintVal (v : ℕ)
  | boolVal (v : Bool)
  | strVal (v : String)
  deriving DecidableEq, Repr

/-- Embeds the `Metric` struct: a single data point destined for backends.
Go maps are modelled as association lists; only the key structure matters
for validation. -/
structure Metric where
  Measurement : String
  Tags : List (String × String)
  Fields : List (String × FieldValue)
  Timestamp : Int
  deriving DecidableEq, Repr

/-- Embeds `Metric.Validate`: a metric is valid only with a non-empty
measurement name and at least one field.  Returns `some msg` for the Go
error, `none` for nil. -/
def Metric.Validate (m : Metric) : Option String :=
  if m.Measurement = "" then some "measurement name is required"
  else if m.Fields.length = 0 then some "at least one field is required"
  else none

/-- Model of a `*slog.Logger` reference: either the default logger or a
caller-supplied one. -/
inductive Logger where
  | defaultLogger
  | custom (id : Nat)
  deriving DecidableEq, Repr

/-- Behavioural model of the `Backend` interface.  `write n` is the result
of the n-th call (1-based) to `Write` within one flush (`none` = success);
`initResult` and `closeResult` model `Initialize` and `Close`. -/
structure Backend where
  name : String
  initResult : Option String
  healthy : Bool
  write : Nat → Option String
  closeResult : Option String

/-- Embeds the `PipelineConfig` struct. -/
structure PipelineConfig where
  BatchSize : Int
  FlushInterval : Int
  RetryAttempts : Int
  RetryDelay : Int
  Logger : Option Logger

/-- Embeds `DefaultPipelineConfig`. -/
def DefaultPipelineConfig : PipelineConfig :=
  { BatchSize := 10
    FlushInterval := 10 * nsPerSecond
    RetryAttempts := 3
    RetryDelay := nsPerSecond
    Logger := some Logger.defaultLogger }

/-- Embeds the `Pipeline` struct (the buffer and configuration fields; the
mutex, done channel and wait group are concurrency plumbing with no
sequential content). -/
structure Pipeline where
  backends : List Backend
  batchSize : Int
  flushInterval : Int
  retryAttempts : Int
  retryDelay : Int
  buffer : List Metric
  logger : Logger

/-- Embeds `NewPipeline`: non-positive configuration values are replaced by
the defaults and a nil logger by the default logger; construction never
fails. -/
def NewPipeline (cfg : PipelineConfig) : Pipeline :=
  let batchSize := if cfg.BatchSize ≤ 0 then 10 else cfg.BatchSize
  let flushInterval := if cfg.FlushInterval ≤ 0 then 10 * nsPerSecond else cfg.FlushInterval
  let retryAttempts := if cfg.RetryAttempts ≤ 0 then 3 else cfg.RetryAttempts
  let retryDelay := if cfg.RetryDelay ≤ 0 then nsPerSecond else cfg.RetryDelay
  let logger := cfg.Logger.getD Logger.defaultLogger
  { backends := []
    batchSize := batchSize
    flushInterval := flushInterval
    retryAttempts := retryAttempts
    retryDelay := retryDelay
    buffer := []
    logger := logger }

/-- Embeds `Pipeline.AddBackend`. -/
def Pipeline.AddBackend (p : Pipeline) (b : Backend) : Pipeline :=
  { p with backends := p.backends ++ [b] }

/-- Observable events of a pipeline/monitor execution, used to state which
backends were initialised, written to, skipped, or closed, and when the
collector ran. -/
inductive Event where
  | backendInit (name : String)
  | collectorCall
  | skippedUnhealthy (name : String)
  | wrote (name : String) (calls : Nat) (batch : List Metric) (err : Option String)
  | backendClose (name : String)
  deriving DecidableEq, Repr

/-- Embeds the loop body of `Pipeline.writeWithRetry`.  `rem` is the number
of attempts still allowed, `attempt` the 1-based index of the next attempt,
`lastErr` the last write error seen.  `ctxErr = some e` models a context
whose `Done` channel has fired with `ctx.Err() = e`: the select during the
inter-attempt sleep then returns the context error.  Returns the function
result together with the total number of `Write` calls made. -/
def retryLoopGo (write : Nat → Option String) (ctxErr : Option String) :
    Nat → Nat → Option String → Option String × Nat
  | 0, attempt, lastErr => (lastErr, attempt - 1)
  | rem + 1, attempt, _lastErr =>
    match write attempt with
    | none => (none, attempt)
    | some e =>
      if rem = 0 then (some e, attempt)
      else
        match ctxErr with
        | some ce => (some ce, attempt)
        | none => retryLoopGo write ctxErr rem (attempt + 1) (some e)

/-- Embeds `Pipeline.writeWithRetry` for a backend with write behaviour
`write`: up to `retryAttempts` attempts, returning the last error after
exhaustion, `none` on the first success.  Second component is the number of
`Write` calls performed. -/
def writeWithRetry (retryAttempts : Nat) (write : Nat → Option String)
    (ctxErr : Option String) : Option String × Nat :=
  retryLoopGo write ctxErr retryAttempts 1 none

/-- Embeds the backend loop of `Pipeline.Flush`: iterate over the backends
in registration order, skip unhealthy ones, call `writeWithRetry` on the
rest, remembering the last error.  Returns the event log and the final
`lastErr`. -/
def flushBackends (retryAttempts : Nat) (ctxErr : Option String) (batch : List Metric) :
    List Backend → Option String → List Event × Option String
  | [], lastErr => ([], lastErr)
  | b :: rest, lastErr =>
    if b.healthy then
      let r := writeWithRetry retryAttempts b.write ctxErr
      let newLast := match r.1 with
        | none => lastErr
        | some e => some e
      let res := flushBackends retryAttempts ctxErr batch rest newLast
      (Event.wrote b.name r.2 batch r.1 :: res.1, res.2)
    else
      let res := flushBackends retryAttempts ctxErr batch rest lastErr
      (Event.skippedUnhealthy b.name :: res.1, res.2)

/-- One step of the last-error accumulation performed by the backend loop
of `Flush`: healthy backends overwrite the accumulator when their
write-with-retry fails, unhealthy ones leave it untouched. -/
def flushErrStep (ra : Nat) (ctxErr : Option String) (acc : Option String) (b : Backend) :
    Option String :=
  if b.healthy then
    match (writeWithRetry ra b.write ctxErr).1 with
    | none => acc
    | some e => some e
  else acc

/-- Embeds `Pipeline.Flush`: an empty buffer is a no-op returning nil;
otherwise the buffer is swapped for an empty one and the captured batch is
dispatched to every backend.  Returns the new pipeline, the returned error,
and the event log. -/
def Pipeline.Flush (p : Pipeline) (ctxErr : Option String) :
    Pipeline × Option String × List Event :=
  if p.buffer = [] then (p, none, [])
  else
    let batch := p.buffer
    let fl := flushBackends p.retryAttempts.toNat ctxErr batch p.backends none
    ({ p with buffer := [] }, fl.2, fl.1)

/-- Embeds `Pipeline.Push`: an invalid metric is dropped (buffer unchanged,
no error reported to the caller); a valid one is appended and the boolean
records whether the batch-size threshold triggered an asynchronous flush.
The asynchronous flush itself runs in a separate goroutine and is not
interleaved here. -/
def Pipeline.Push (p : Pipeline) (m : Metric) : Pipeline × Bool :=
  match m.Validate with
  | some _ => (p, false)
  | none =>
    let buffer := p.buffer ++ [m]
    ({ p with buffer := buffer }, decide (p.batchSize ≤ (buffer.length : Int)))

/-- Embeds the backend-initialisation loop of `Pipeline.Start`: initialise
every backend in order, aborting on the first error (the background flush
goroutine is concurrency plumbing, not modelled). -/
def startBackends : List Backend → List Event × Option String
  | [] => ([], none)
  | b :: rest =>
    match b.initResult with
    | some e => ([], some e)
    | none =>
      let res := startBackends rest
      (Event.backendInit b.name :: res.1, res.2)

/-- Embeds the backend-close loop of `Pipeline.Stop`: close every backend,
collecting the last close error without short-circuiting. -/
def closeBackends : List Backend → Option String → List Event × Option String
  | [], lastErr => ([], lastErr)
  | b :: rest, lastErr =>
    let newLast := match b.closeResult with
      | none => lastErr
      | some e => some e
    let res := closeBackends rest newLast
    (Event.backendClose b.name :: res.1, res.2)

/-- Embeds `Pipeline.Stop`: perform a final flush (its error is only
logged), then close every backend; returns the drained pipeline, the event
log, and the last close error. -/
def Pipeline.Stop (p : Pipeline) : Pipeline × List Event × Option String :=
  let fl := p.Flush none
  let cl := closeBackends p.backends none
  (fl.1, fl.2.2 ++ cl.1, cl.2)

/-! ### Configuration model (`config.go`, `validation.go`) -/

/-- Embeds the `Duration` wrapper around `time.Duration` (nanoseconds). -/
structure Duration where
  Duration : Int
  deriving DecidableEq, Repr

/-- Embeds `GlobalConfig`. -/
structure GlobalConfig where
  PollInterval : Duration
  LogLevel : String
  BatchSize : Int
  RetryAttempts : Int
  RetryDelay : Duration
  deriving DecidableEq, Repr

/-- Embeds `InfluxDBConfig`. -/
structure InfluxDBConfig where
  Enabled : Bool
  URL : String
  Token : String
  Org : String
  Bucket : String
  deriving DecidableEq, Repr

/-- Embeds `PrometheusConfig`. -/
structure PrometheusConfig where
  Enabled : Bool
  Port : Int
  Path : String
  deriving DecidableEq, Repr

/-- Embeds `Config`. -/
structure Config where
  Global : GlobalConfig
  InfluxDB : InfluxDBConfig
  Prometheus : PrometheusConfig
  deriving DecidableEq, Repr

/-- Embeds `DefaultConfig`. -/
def DefaultConfig : Config :=
  { Global :=
      { PollInterval := ⟨10 * nsPerSecond⟩
        LogLevel := "info"
        BatchSize := 10
        RetryAttempts := 3
        RetryDelay := ⟨nsPerSecond⟩ }
    InfluxDB := { Enabled := false, URL := "", Token := "", Org := "", Bucket := "" }
    Prometheus := { Enabled := false, Port := 9090, Path := "/metrics" } }

/-- Embeds `ValidationError`. -/
structure ValidationError where
  Field : String
  Message : String
  deriving DecidableEq, Repr

/-- Models Go's `strings.ToLower`: character-wise lowercasing (an
executable, kernel-reducible form of `String.toLower`). -/
def toLowerGo (s : String) : String := ⟨s.data.map Char.toLower⟩

/-- Models Go's `strings.HasPrefix` (kernel-reducible form of
`String.startsWith`). -/
def hasPrefixGo (s pre : String) : Bool := pre.data.isPrefixOf s.data

/-- The valid log levels of `validateGlobal` (the keys of its
`validLevels` map). -/
def validLevels : List String := ["debug", "info", "warn", "error"]

/-- Embeds `Config.validateGlobal`: checks poll interval positivity, batch
size positivity, and log level membership — and nothing else. -/
def Config.validateGlobal (c : Config) : List ValidationError :=
  let errs : List ValidationError := []
  let errs := if c.Global.PollInterval.Duration ≤ 0 then
      errs ++ [⟨"global.poll_interval", "must be positive"⟩] else errs
  let errs := if c.Global.BatchSize ≤ 0 then
      errs ++ [⟨"global.batch_size", "must be positive"⟩] else errs
  let errs := if !(validLevels.contains (toLowerGo c.Global.LogLevel)) then
      errs ++ [⟨"global.log_level", "must be one of: debug, info, warn, error"⟩] else errs
  errs

/-- Embeds `Config.validateInfluxDB`. -/
def Config.validateInfluxDB (c : Config) : List ValidationError :=
  if !c.InfluxDB.Enabled then []
  else
    let errs : List ValidationError := []
    let errs := if c.InfluxDB.URL = "" then
        errs ++ [⟨"influxdb.url", "required when InfluxDB is enabled"⟩] else errs
    let errs := if c.InfluxDB.Token = "" then
        errs ++ [⟨"influxdb.token", "required when InfluxDB is enabled"⟩] else errs
    let errs := if c.InfluxDB.Org = "" then
        errs ++ [⟨"influxdb.org", "required when InfluxDB is enabled"⟩] else errs
    let errs := if c.InfluxDB.Bucket = "" then
        errs ++ [⟨"influxdb.bucket", "required when InfluxDB is enabled"⟩] else errs
    errs

/-- Embeds `Config.validatePrometheus`. -/
def Config.validatePrometheus (c : Config) : List ValidationError :=
  if !c.Prometheus.Enabled then []
  else
    let errs : List ValidationError := []
    let errs := if c.Prometheus.Port ≤ 0 ∨ 65535 < c.Prometheus.Port then
        errs ++ [⟨"prometheus.port", "must be a valid port (1-65535)"⟩] else errs
    let errs := if c.Prometheus.Path = "" then
        errs ++ [⟨"prometheus.path", "required when Prometheus is enabled"⟩] else errs
    let errs := if c.Prometheus.Path ≠ "" ∧ !(hasPrefixGo c.Prometheus.Path "/") then
        errs ++ [⟨"prometheus.path", "must start with /"⟩] else errs
    errs

/-- Embeds `Config.Validate`: collects the three validator groups and
returns them when non-empty (`none` models a nil error). -/
def Config.Validate (c : Config) : Option (List ValidationError) :=
  let errs := c.validateGlobal ++ c.validateInfluxDB ++ c.validatePrometheus
  if 0 < errs.length then some errs else none

/-! ### Poll statistics (`stats.go`) -/

/-- Embeds `PollStats`. -/
structure PollStats where
  TotalPolls : Int
  SuccessfulPolls : Int
  FailedPolls : Int
  TotalMetrics : Int
  LastDuration : Int
  deriving DecidableEq, Repr

/-- The zero value of `PollStats` (a freshly constructed `statsTracker`). -/
def PollStats.zero : PollStats :=
  { TotalPolls := 0, SuccessfulPolls := 0, FailedPolls := 0
    TotalMetrics := 0, LastDuration := 0 }

/-- Embeds `statsTracker.recordPoll` (the mutex is concurrency plumbing;
`metricCount` is a Go `int`, hence `Int` here). -/
def recordPoll (s : PollStats) (success : Bool) (metricCount : Int) (duration : Int) :
    PollStats :=
  let s1 := { s with TotalPolls := s.TotalPolls + 1 }
  let s2 :=
    if success then
      { s1 with SuccessfulPolls := s1.SuccessfulPolls + 1
                TotalMetrics := s1.TotalMetrics + metricCount }
    else
      { s1 with FailedPolls := s1.FailedPolls + 1 }
  { s2 with LastDuration := duration }

/-- A sequence of `recordPoll` calls applied in order; each list entry is
`(success, metricCount, duration)`. -/
def recordPolls (s : PollStats) (calls : List (Bool × Int × Int)) : PollStats :=
  calls.foldl (fun acc c => recordPoll acc c.1 c.2.1 c.2.2) s

/-! ### Logging (`logging.go`) -/

/-- Model of `slog.Level` restricted to the four levels the library uses. -/
inductive LogLevel where
  | debug
  | info
  | warn
  | error
  deriving DecidableEq, Repr

/-- Embeds `ParseLogLevel`: unknown strings default to info. -/
def ParseLogLevel (level : String) : LogLevel :=
  match toLowerGo level with
  | "debug" => LogLevel.debug
  | "warn" => LogLevel.warn
  | "error" => LogLevel.error
  | _ => LogLevel.info

/-! ### Monitor runtime (`monitor.go`) -/

/-- Embeds the `Echo` backend produced by `NewEchoStdout`: always healthy
after construction, `Initialize` and `Close` return nil, and `Write` to
stdout succeeds. -/
def echoStdout : Backend :=
  { name := "echo"
    initResult := none
    healthy := true
    write := fun _ => none
    closeResult := none }

/-- Embeds the `Monitor` struct.  The user collector is modelled by the
result of its (single, in run-once mode) invocation; the signal handler is
concurrency plumbing. -/
structure Monitor where
  name : String
  collectResult : Except String (List Metric)
  cfg : Config
  echoMode : Bool
  runOnce : Bool
  backends : List Backend
  stats : PollStats

/-- The `PipelineConfig` that `Monitor.Run` builds from the monitor's
configuration (the monitor's logger is always non-nil after `New`). -/
def Monitor.pipelineConfig (m : Monitor) : PipelineConfig :=
  { BatchSize := m.cfg.Global.BatchSize
    FlushInterval := m.cfg.Global.PollInterval.Duration
    RetryAttempts := m.cfg.Global.RetryAttempts
    RetryDelay := m.cfg.Global.RetryDelay.Duration
    Logger := some Logger.defaultLogger }

/-- Embeds `Monitor.addBackends`: user backends are appended first, then
the echo backend when echo mode is on; a pipeline left with zero backends
is a configuration error. -/
def Monitor.addBackends (m : Monitor) (p : Pipeline) : Except String Pipeline :=
  let p1 := { p with backends := p.backends ++ m.backends }
  let p2 := if m.echoMode then { p1 with backends := p1.backends ++ [echoStdout] } else p1
  if p2.backends.length = 0 then
    Except.error "no backends configured (use WithBackend, WithEcho, or enable backends in config)"
  else
    Except.ok p2

/-- Embeds `Monitor.collect`: invoke the collector once; on error record a
failed poll with zero points, otherwise record a successful poll with the
point count and push every returned metric (durations are abstracted to 0;
a threshold-triggered flush would run in its own goroutine and is not
interleaved here). -/
def Monitor.collectStep (m : Monitor) (p : Pipeline) : PollStats × Pipeline × List Event :=
  match m.collectResult with
  | Except.error _ => (recordPoll m.stats false 0 0, p, [Event.collectorCall])
  | Except.ok metrics =>
    let stats := recordPoll m.stats true (metrics.length : Int) 0
    let p2 := metrics.foldl (fun acc mm => (acc.Push mm).1) p
    (stats, p2, [Event.collectorCall])

/-- Result of a modelled `Monitor.Run` execution: the event trace, the
error `Run` returned, and the final statistics. -/
structure RunResult where
  events : List Event
  error : Option String
  stats : PollStats
  deriving DecidableEq, Repr

/-- Models `Monitor.Run` along its sequential paths: build the pipeline,
add backends (returning the error before any backend initialisation or
collector call when none are registered), initialise the backends, perform
the immediate first collection, and — in run-once mode — return nil, with
the deferred `Pipeline.Stop` performing the final flush and closing the
backends.  The recurring poll loop taken when `runOnce` is false is
event-driven concurrency and is not modelled beyond this common prefix. -/
def Monitor.RunModel (m : Monitor) : RunResult :=
  let p := NewPipeline m.pipelineConfig
  match m.addBackends p with
  | Except.error e => { events := [], error := some e, stats := m.stats }
  | Except.ok p1 =>
    let st := startBackends p1.backends
    match st.2 with
    | some e =>
      { events := st.1
        error := some ("failed to start pipeline: " ++ e)
        stats := m.stats }
    | none =>
      let c := m.collectStep p1
      let stopped := c.2.1.Stop
      { events := st.1 ++ c.2.2 ++ stopped.2.1, error := none, stats := c.1 }

/-! ### Reload handling (`Monitor.handleReload`) -/

/-- The mutable monitor state that `handleReload` may touch: the current
configuration, the poll ticker's interval, and the log level held by the
`slog.LevelVar` (`none` models a nil `levelVar`). -/
structure ReloadState where
  cfg : Config
  tickerInterval : Int
  levelVar : Option LogLevel
  deriving DecidableEq, Repr

/-- The reload source resolved by `handleReload`: the reload function when
set, else `LoadConfig` on the config path when non-empty, else nothing
(signal ignored).  `loadConfig` models `LoadConfig`'s result on the file
system. -/
def reloadSource (reloadFn : Option (String → Except String Config))
    (loadConfig : String → Except String Config) (cfgPath : String) :
    Option (Except String Config) :=
  match reloadFn with
  | some f => some (f cfgPath)
  | none => if cfgPath = "" then none else some (loadConfig cfgPath)

/-- Embeds `Monitor.handleReload`: with no reload source the signal is
ignored; a failed re-read keeps the previous configuration; on success the
ticker interval and log level are updated only when changed, and the new
configuration is installed. -/
def handleReload (reloadFn : Option (String → Except String Config))
    (loadConfig : String → Except String Config) (cfgPath : String)
    (st : ReloadState) : ReloadState :=
  match reloadSource reloadFn loadConfig cfgPath with
  | none => st
  | some (Except.error _) => st
  | some (Except.ok newCfg) =>
    let tickerInterval :=
      if newCfg.Global.PollInterval.Duration ≠ st.cfg.Global.PollInterval.Duration then
        newCfg.Global.PollInterval.Duration
      else st.tickerInterval
    let levelVar :=
      match st.levelVar with
      | none => none
      | some lv =>
        if newCfg.Global.LogLevel ≠ st.cfg.Global.LogLevel then
          some (ParseLogLevel newCfg.Global.LogLevel)
        else some lv
    { cfg := newCfg, tickerInterval := tickerInterval, levelVar := levelVar }

/-! ### Concrete instances used as witnesses -/

/-- The temperature data point of the spec's end-to-end example. -/
def tempMetric : Metric :=
  { Measurement := "temperature"
    Tags := [("location", "office")]
    Fields := [("celsius", FieldValue.floatVal (45 / 2))]
    Timestamp := 0 }

/-- The humidity data point of the spec's end-to-end example. -/
def humidityMetric : Metric :=
  { Measurement := "humidity"
    Tags := [("location", "office")]
    Fields := [("percent", FieldValue.floatVal 45)]
    Timestamp := 0 }

/-- A metric with an empty measurement name (invalid for delivery). -/
def invalidMetric : Metric :=
  { Measurement := "", Tags := [], Fields := [], Timestamp := 0 }

/-- An always-healthy backend whose every operation succeeds. -/
def exampleBackend : Backend :=
  { name := "example"
    initResult := none
    healthy := true
    write := fun _ => none
    closeResult := none }

/-- A healthy backend whose `Write` fails on every attempt. -/
def failBackend : Backend :=
  { name := "fail"
    initResult := none
    healthy := true
    write := fun _ => some "write error"
    closeResult := none }

/-- A backend reporting unhealthy. -/
def downBackend : Backend :=
  { name := "down"
    initResult := none
    healthy := false
    write := fun _ => some "unreachable"
    closeResult := none }

/-- A pipeline with an always-failing backend registered before a working
one and one buffered metric. -/
def witnessPipeline : Pipeline :=
  { backends := [failBackend, exampleBackend]
    batchSize := 10
    flushInterval := nsPerSecond
    retryAttempts := 3
    retryDelay := nsPerSecond
    buffer := [tempMetric]
    logger := Logger.defaultLogger }

/-- A pipeline whose only registered backend reports unhealthy, with one
buffered metric. -/
def unhealthyPipeline : Pipeline :=
  { backends := [downBackend]
    batchSize := 10
    flushInterval := nsPerSecond
    retryAttempts := 3
    retryDelay := nsPerSecond
    buffer := [tempMetric]
    logger := Logger.defaultLogger }

/-- A pipeline with a single healthy backend that succeeds on the second
attempt, with one buffered metric. -/
def secondTryPipeline : Pipeline :=
  { backends := [{ name := "flaky"
                   initResult := none
                   healthy := true
                   write := fun n => if n < 2 then some "transient error" else none
                   closeResult := none }]
    batchSize := 10
    flushInterval := nsPerSecond
    retryAttempts := 3
    retryDelay := nsPerSecond
    buffer := [tempMetric]
    logger := Logger.defaultLogger }

/-- The monitor of the spec's end-to-end example: run-once, a collector
returning the two example points, a single always-healthy backend, default
configuration (batch size 10). -/
def exampleMonitor : Monitor :=
  { name := "example-monitor"
    collectResult := Except.ok [tempMetric, humidityMetric]
    cfg := DefaultConfig
    echoMode := false
    runOnce := true
    backends := [exampleBackend]
    stats := PollStats.zero }

/-- A monitor with zero registered backends and echo mode disabled. -/
def noBackendMonitor : Monitor :=
  { name := "no-backends"
    collectResult := Except.ok [tempMetric]
    cfg := DefaultConfig
    echoMode := false
    runOnce := true
    backends := []
    stats := PollStats.zero }

/-- A configuration that is valid except that its retry attempts and retry
delay are zero. -/
def cfgRetryZero : Config :=
  { Global :=
      { PollInterval := ⟨10 * nsPerSecond⟩
        LogLevel := "info"
        BatchSize := 10
        RetryAttempts := 0
        RetryDelay := ⟨0⟩ }
    InfluxDB := { Enabled := false, URL := "", Token := "", Org := "", Bucket := "" }
    Prometheus := { Enabled := false, Port := 9090, Path := "/metrics" } }

/-- A configuration with non-positive poll interval and batch size. -/
def cfgNonPositive : Config :=
  { Global :=
      { PollInterval := ⟨0⟩
        LogLevel := "info"
        BatchSize := 0
        RetryAttempts := 3
        RetryDelay := ⟨nsPerSecond⟩ }
    InfluxDB := { Enabled := false, URL := "", Token := "", Org := "", Bucket := "" }
    Prometheus := { Enabled := false, Port := 9090, Path := "/metrics" } }

/-- A pipeline configuration with every field non-positive and no
logger. -/
def zeroPipelineConfig : PipelineConfig :=
  { BatchSize := 0
    FlushInterval := 0
    RetryAttempts := 0
    RetryDelay := 0
    Logger := none }

/-- A reload state used to witness the reload theorems. -/
def reloadStateExample : ReloadState :=
  { cfg := DefaultConfig
    tickerInterval := 10 * nsPerSecond
    levelVar := some LogLevel.info }

/-! ### Supporting lemmas about the retry loop -/

/-- When every write attempt fails and the context is live, the retry loop
performs all remaining attempts and returns the result of the last one. -/
theorem retryLoopGo_allFail (write : Nat → Option String)
    (hw : ∀ n, (write n).isSome) :
    ∀ rem attempt lastErr, 1 ≤ rem →
      retryLoopGo write none rem attempt lastErr =
        (write (attempt + rem - 1), attempt + rem - 1) := by
  intro rem
  induction rem with
  | zero => intro attempt lastErr h; omega
  | succ r ih =>
    intro attempt lastErr _
    obtain ⟨e, he⟩ := Option.isSome_iff_exists.mp (hw attempt)
    by_cases hr : r = 0
    · subst hr
      simp [retryLoopGo, he]
    · have hr1 : 1 ≤ r := Nat.one_le_iff_ne_zero.mpr hr
      have harith : attempt + 1 + r - 1 = attempt + (r + 1) - 1 := by omega
      simp only [retryLoopGo, he, if_neg hr]
      rw [ih (attempt + 1) (some e) hr1, harith]

/-- `writeWithRetry` against an always-failing backend performs exactly
`retryAttempts` write calls and returns the last attempt's error. -/
theorem writeWithRetry_allFail (ra : Nat) (write : Nat → Option String)
    (hra : 1 ≤ ra) (hw : ∀ n, (write n).isSome) :
    writeWithRetry ra write none = (write ra, ra) := by
  unfold writeWithRetry
  rw [retryLoopGo_allFail write hw ra 1 none hra]
  have : 1 + ra - 1 = ra := by omega
  rw [this]

/-- When attempts up to `k` fail but attempt `k` succeeds within the
remaining budget, the retry loop stops at attempt `k` with no error. -/
theorem retryLoopGo_succeedsAt (write : Nat → Option String) (k : Nat)
    (hk : write k = none) (hfail : ∀ n, 1 ≤ n → n < k → (write n).isSome) :
    ∀ rem attempt lastErr, 1 ≤ attempt → attempt ≤ k → k ≤ attempt + rem - 1 → 1 ≤ rem →
      retryLoopGo write none rem attempt lastErr = (none, k) := by
  intro rem
  induction rem with
  | zero => intro attempt lastErr _ _ _ h; omega
  | succ r ih =>
    intro attempt lastErr ha1 hak hk2 _
    by_cases heq : attempt = k
    · subst heq
      simp [retryLoopGo, hk]
    · have hlt : attempt < k := lt_of_le_of_ne hak heq
      obtain ⟨e, he⟩ := Option.isSome_iff_exists.mp (hfail attempt ha1 hlt)
      have hr : ¬(r = 0) := by omega
      simp only [retryLoopGo, he, if_neg hr]
      exact ih (attempt + 1) (some e) (by omega) (by omega) (by omega) (by omega)

/-- `writeWithRetry` against a backend succeeding on attempt `k` within the
budget returns no error after exactly `k` write calls. -/
theorem writeWithRetry_succeedsAt (ra k : Nat) (write : Nat → Option String)
    (hk1 : 1 ≤ k) (hkra : k ≤ ra)
    (hfail : ∀ n, 1 ≤ n → n < k → (write n).isSome)
    (hsucc : write k = none) :
    writeWithRetry ra write none = (none, k) := by
  unfold writeWithRetry
  exact retryLoopGo_succeedsAt write k hsucc hfail ra 1 none (by omega) hk1 (by omega) (by omega)

/-- The retry loop performs at least one write call when at least one
attempt is allowed. -/
theorem retryLoopGo_calls_ge (write : Nat → Option String) (ctxErr : Option String) :
    ∀ rem attempt lastErr, 1 ≤ rem →
      attempt ≤ (retryLoopGo write ctxErr rem attempt lastErr).2 := by
  intro rem
  induction rem with
  | zero => intro attempt lastErr h; omega
  | succ r ih =>
    intro attempt lastErr _
    cases he : write attempt with
    | none => simp [retryLoopGo, he]
    | some e =>
      by_cases hr : r = 0
      · subst hr
        simp [retryLoopGo, he]
      · cases ctxErr with
        | some ce => simp [retryLoopGo, he, hr]
        | none =>
          have := ih (attempt + 1) (some e) (Nat.one_le_iff_ne_zero.mpr hr)
          simp only [retryLoopGo, he, if_neg hr]
          omega

/-! ### Supporting lemmas about the flush backend loop -/

/-- The flush loop emits exactly one event per registered backend. -/
theorem flushBackends_length (ra : Nat) (ctxErr : Option String) (batch : List Metric) :
    ∀ (bs : List Backend) (lastErr : Option String),
      (flushBackends ra ctxErr batch bs lastErr).1.length = bs.length := by
  intro bs
  induction bs with
  | nil => intro lastErr; simp [flushBackends]
  | cons b rest ih =>
    intro lastErr
    by_cases hb : b.healthy <;> simp [flushBackends, hb, ih]

/-- The event at position `j` of the flush loop's log describes backend
`j`: a write (with its retry count and result) when healthy, a skip when
not. -/
theorem flushBackends_get (ra : Nat) (ctxErr : Option String) (batch : List Metric) :
    ∀ (bs : List Backend) (lastErr : Option String) (j : Nat) (b : Backend),
      bs[j]? = some b →
      (flushBackends ra ctxErr batch bs lastErr).1[j]? =
        some (if b.healthy then
                Event.wrote b.name (writeWithRetry ra b.write ctxErr).2 batch
                  (writeWithRetry ra b.write ctxErr).1
              else Event.skippedUnhealthy b.name) := by
  intro bs
  induction bs with
  | nil => intro lastErr j b h; simp at h
  | cons hd rest ih =>
    intro lastErr j b h
    cases j with
    | zero =>
      simp only [List.getElem?_cons_zero, Option.some.injEq] at h
      subst h
      by_cases hb : hd.healthy <;> simp [flushBackends, hb]
    | succ j =>
      simp only [List.getElem?_cons_succ] at h
      by_cases hb : hd.healthy <;> simp [flushBackends, hb, ih _ j b h]

/-- The final error of the flush loop is the left fold of the last-error
step function over the backends, seeded with the incoming accumulator. -/
theorem flushBackends_err (ra : Nat) (ctxErr : Option String) (batch : List Metric) :
    ∀ (bs : List Backend) (lastErr : Option String),
      (flushBackends ra ctxErr batch bs lastErr).2 =
        bs.foldl (flushErrStep ra ctxErr) lastErr := by
  intro bs
  induction bs with
  | nil => intro lastErr; simp [flushBackends]
  | cons b rest ih =>
    intro lastErr
    by_cases hb : b.healthy
    · cases hw : (writeWithRetry ra b.write ctxErr).1 <;>
        simp [flushBackends, hb, hw, flushErrStep, ih]
    · simp [flushBackends, hb, flushErrStep, ih]

/-- The last-error fold never forgets an error it has already recorded. -/
theorem foldl_flushErrStep_isSome (ra : Nat) (ctxErr : Option String) :
    ∀ (bs : List Backend) (lastErr : Option String), lastErr.isSome →
      (bs.foldl (flushErrStep ra ctxErr) lastErr).isSome := by
  intro bs
  induction bs with
  | nil => intro lastErr h; simpa using h
  | cons hd rest ih =>
    intro lastErr h
    rw [List.foldl_cons]
    apply ih
    unfold flushErrStep
    by_cases hb : hd.healthy
    · cases hw : (writeWithRetry ra hd.write ctxErr).1 <;> simp [hb, hw, h]
    · simpa [hb] using h

/-- If some healthy backend's write-with-retry fails, the last-error fold
ends with an error. -/
theorem foldl_flushErrStep_isSome_of_failure (ra : Nat) (ctxErr : Option String) :
    ∀ (bs : List Backend) (lastErr : Option String) (i : Nat) (b : Backend),
      bs[i]? = some b → b.healthy = true →
      ((writeWithRetry ra b.write ctxErr).1).isSome →
      (bs.foldl (flushErrStep ra ctxErr) lastErr).isSome := by
  intro bs
  induction bs with
  | nil => intro lastErr i b h; simp at h
  | cons hd rest ih =>
    intro lastErr i b h hb hw
    cases i with
    | zero =>
      simp only [List.getElem?_cons_zero, Option.some.injEq] at h
      subst h
      obtain ⟨e, he⟩ := Option.isSome_iff_exists.mp hw
      have hstep : flushErrStep ra ctxErr lastErr hd = some e := by
        simp [flushErrStep, hb, he]
      rw [List.foldl_cons, hstep]
      exact foldl_flushErrStep_isSome ra ctxErr rest (some e) rfl
    | succ i =>
      simp only [List.getElem?_cons_succ] at h
      rw [List.foldl_cons]
      exact ih _ i b h hb hw

/-- Unhealthy backends contribute nothing to the flush loop's final error:
it coincides with the final error over the healthy backends alone. -/
theorem flushBackends_err_filter (ra : Nat) (ctxErr : Option String) (batch : List Metric) :
    ∀ (bs : List Backend) (lastErr : Option String),
      (flushBackends ra ctxErr batch bs lastErr).2 =
        (flushBackends ra ctxErr batch (bs.filter fun x => x.healthy) lastErr).2 := by
  intro bs
  induction bs with
  | nil => intro lastErr; simp
  | cons b rest ih =>
    intro lastErr
    by_cases hb : b.healthy
    · cases hw : (writeWithRetry ra b.write ctxErr).1 <;>
        simp [flushBackends, List.filter_cons, hb, hw, ih]
    · simp [flushBackends, List.filter_cons, hb, ih]

/-! ### Claim theorems -/

/-- C2: for every pipeline with a healthy backend whose `Write` fails on
every attempt, a flush with a non-empty buffer (and a live context) invokes
that backend's `Write` exactly `retryAttempts` times and `Flush` returns a
non-nil error, namely the last error encountered across the backend loop;
every registered backend keeps its slot in the registration-ordered event
log, and every healthy one — including any registered after the failing
one — receives at least one `Write` call (no short-circuit).  The
`retryAttempts ≥ 1` hypothesis is guaranteed by `NewPipeline` for every
constructed pipeline. -/
theorem flush_always_failing_backend (p : Pipeline) (i : Nat) (b : Backend)
    (hb : p.backends[i]? = some b)
    (hhealthy : b.healthy = true)
    (hfail : ∀ n, (b.write n).isSome)
    (hbuf : p.buffer ≠ [])
    (hra : 1 ≤ p.retryAttempts) :
    (∃ e, (p.Flush none).2.2[i]? =
        some (Event.wrote b.name p.retryAttempts.toNat p.buffer (some e))) ∧
    ((p.Flush none).2.1).isSome ∧
    (p.Flush none).2.1 =
      p.backends.foldl (flushErrStep p.retryAttempts.toNat none) none ∧
    (p.Flush none).2.2.length = p.backends.length ∧
    (∀ (j : Nat) (bj : Backend), p.backends[j]? = some bj → bj.healthy = true →
      ∃ err, (p.Flush none).2.2[j]? =
          some (Event.wrote bj.name
            (writeWithRetry p.retryAttempts.toNat bj.write none).2 p.buffer err) ∧
        1 ≤ (writeWithRetry p.retryAttempts.toNat bj.write none).2) := by
  have hraN : 1 ≤ p.retryAttempts.toNat := by omega
  have hww := writeWithRetry_allFail p.retryAttempts.toNat b.write hraN hfail
  obtain ⟨e, he⟩ := Option.isSome_iff_exists.mp (hfail p.retryAttempts.toNat)
  simp only [Pipeline.Flush, if_neg hbuf]
  refine ⟨⟨e, ?_⟩, ?_, ?_, ?_, ?_⟩
  · rw [flushBackends_get _ _ _ _ _ i b hb]
    simp [hhealthy, hww, he]
  · rw [flushBackends_err]
    apply foldl_flushErrStep_isSome_of_failure _ _ _ _ i b hb hhealthy
    rw [hww]
    exact hfail _
  · exact flushBackends_err _ _ _ _ _
  · exact flushBackends_length _ _ _ _ _
  · intro j bj hj hjh
    refine ⟨(writeWithRetry p.retryAttempts.toNat bj.write none).1, ?_, ?_⟩
    · rw [flushBackends_get _ _ _ _ _ j bj hj]
      simp [hjh]
    · exact retryLoopGo_calls_ge bj.write none _ 1 none hraN

/-- Witness for C2 at a concrete pipeline: the always-failing backend
`failBackend` is registered before the working `exampleBackend`. -/
theorem flush_always_failing_backend_witness :
    ((witnessPipeline.Flush none).2.1).isSome = true ∧
    (∃ e, (witnessPipeline.Flush none).2.2[0]? =
      some (Event.wrote "fail" 3 [tempMetric] (some e))) := by
  have h := flush_always_failing_backend witnessPipeline 0 failBackend rfl rfl
    (fun _ => rfl) (by simp [witnessPipeline]) (by decide)
  exact ⟨h.2.1, h.1⟩

/-- C3: for every pipeline whose single registered healthy backend fails on
the first k−1 attempts and succeeds on attempt k ≤ `retryAttempts`,
write-with-retry returns no error after exactly k `Write` calls, and hence
the flush over that backend returns no error and logs exactly one write of
k attempts. -/
theorem flush_succeeds_on_attempt_k (p : Pipeline) (b : Backend) (k : Nat)
    (hbs : p.backends = [b])
    (hh : b.healthy = true)
    (hk1 : 1 ≤ k)
    (hkra : (k : Int) ≤ p.retryAttempts)
    (hfail : ∀ n, 1 ≤ n → n < k → (b.write n).isSome)
    (hsucc : b.write k = none)
    (hbuf : p.buffer ≠ []) :
    writeWithRetry p.retryAttempts.toNat b.write none = (none, k) ∧
    (p.Flush none).2.1 = none ∧
    (p.Flush none).2.2 = [Event.wrote b.name k p.buffer none] := by
  have hkraN : k ≤ p.retryAttempts.toNat := by omega
  have hww := writeWithRetry_succeedsAt p.retryAttempts.toNat k b.write hk1 hkraN hfail hsucc
  refine ⟨hww, ?_, ?_⟩ <;>
    simp [Pipeline.Flush, if_neg hbuf, hbs, flushBackends, hh, hww]

/-- Witness for C3: a backend that fails once then succeeds on the second
of three allowed attempts. -/
theorem flush_succeeds_on_attempt_k_witness :
    (secondTryPipeline.Flush none).2.1 = none ∧
    (secondTryPipeline.Flush none).2.2 =
      [Event.wrote "flaky" 2 [tempMetric] none] := by
  have h := flush_succeeds_on_attempt_k secondTryPipeline
    { name := "flaky"
      initResult := none
      healthy := true
      write := fun n => if n < 2 then some "transient error" else none
      closeResult := none } 2 rfl rfl (by decide) (by decide)
    (by intro n h1 h2; interval_cases n <;> decide) (by decide)
    (by simp [secondTryPipeline])
  exact ⟨h.2.1, h.2.2⟩

/-- C4: `Push` drops every metric with an empty measurement name or an
empty field set: the pipeline (in particular its buffer) is unchanged, no
threshold flush is triggered by the call, and — the buffer being the only
path to a backend — the metric never reaches one; `Push` has no error
return, so no error is reported to the caller. -/
theorem push_drops_invalid_metric (p : Pipeline) (m : Metric)
    (h : m.Measurement = "" ∨ m.Fields = []) :
    p.Push m = (p, false) := by
  have hv : ∃ msg, m.Validate = some msg := by
    unfold Metric.Validate
    rcases h with h | h
    · exact ⟨"measurement name is required", by simp [h]⟩
    · by_cases hm : m.Measurement = "" <;> simp [hm, h]
  obtain ⟨msg, hv⟩ := hv
  simp [Pipeline.Push, hv]

/-- Witness for C4: pushing a metric with an empty measurement name into a
freshly constructed pipeline changes nothing. -/
theorem push_drops_invalid_metric_witness :
    (NewPipeline DefaultPipelineConfig).Push invalidMetric =
      (NewPipeline DefaultPipelineConfig, false) :=
  push_drops_invalid_metric (NewPipeline DefaultPipelineConfig) invalidMetric (Or.inl rfl)

/-- C5: during any flush, a backend reporting unhealthy never receives a
`Write` call: with an empty buffer no backend is touched at all, and with a
non-empty buffer the unhealthy backend's slot in the event log is a skip
(no retry spent), while the flush's returned error coincides with the error
computed over the healthy backends alone — the skip contributes no
error. -/
theorem flush_skips_unhealthy_backend (p : Pipeline) (i : Nat) (b : Backend)
    (ctxErr : Option String)
    (hb : p.backends[i]? = some b)
    (hun : b.healthy = false) :
    (p.buffer = [] → p.Flush ctxErr = (p, none, [])) ∧
    (p.buffer ≠ [] →
      (p.Flush ctxErr).2.2[i]? = some (Event.skippedUnhealthy b.name) ∧
      (p.Flush ctxErr).2.1 =
        (flushBackends p.retryAttempts.toNat ctxErr p.buffer
          (p.backends.filter fun x => x.healthy) none).2) := by
  constructor
  · intro hemp
    simp [Pipeline.Flush, hemp]
  · intro hbuf
    constructor
    · simp only [Pipeline.Flush, if_neg hbuf]
      rw [flushBackends_get _ _ _ _ _ i b hb]
      simp [hun]
    · simp only [Pipeline.Flush, if_neg hbuf]
      exact flushBackends_err_filter _ _ _ _ _

/-- Witness for C5: flushing a pipeline whose only backend is unhealthy
skips it and returns no error. -/
theorem flush_skips_unhealthy_backend_witness :
    (unhealthyPipeline.Flush none).2.2[0]? =
      some (Event.skippedUnhealthy "down") := by
  have h := flush_skips_unhealthy_backend unhealthyPipeline 0 downBackend none rfl rfl
  exact (h.2 (by simp [unhealthyPipeline])).1

/-- The poll-interval validation error is reported whenever the poll
interval is non-positive, whatever the other fields. -/
theorem mem_validateGlobal_pollInterval (c : Config)
    (h : c.Global.PollInterval.Duration ≤ 0) :
    ({ Field := "global.poll_interval", Message := "must be positive" } : ValidationError)
      ∈ c.validateGlobal := by
  simp only [Config.validateGlobal]
  split_ifs <;> simp_all

/-- The batch-size validation error is reported whenever the batch size is
non-positive, whatever the other fields. -/
theorem mem_validateGlobal_batchSize (c : Config)
    (h : c.Global.BatchSize ≤ 0) :
    ({ Field := "global.batch_size", Message := "must be positive" } : ValidationError)
      ∈ c.validateGlobal := by
  simp only [Config.validateGlobal]
  split_ifs <;> simp_all

/-- An error reported by `validateGlobal` surfaces in the non-nil result of
`Config.Validate`. -/
theorem validate_some_of_mem_global (c : Config) (e : ValidationError)
    (h : e ∈ c.validateGlobal) :
    ∃ errs, c.Validate = some errs ∧ e ∈ errs := by
  have hm : e ∈ c.validateGlobal ++ c.validateInfluxDB ++ c.validatePrometheus := by
    simp [h]
  refine ⟨c.validateGlobal ++ c.validateInfluxDB ++ c.validatePrometheus, ?_, hm⟩
  simp only [Config.Validate]
  rw [if_pos (List.length_pos.mpr (List.ne_nil_of_mem hm))]

/-- C1 (counterexample): a configuration whose retry attempts and retry
delay are zero but whose other fields are valid passes `Config.Validate`
with no error at all — validation does not reject non-positive retry
attempts or retry delay, contrary to the claim. -/
theorem validate_ignores_retry_fields :
    cfgRetryZero.Global.RetryAttempts ≤ 0 ∧
    cfgRetryZero.Global.RetryDelay.Duration ≤ 0 ∧
    cfgRetryZero.Validate = none := by decide

/-- C1 (amended): configuration validation rejects a non-positive poll
interval and a non-positive batch size, returning a validation error naming
that field; retry attempts and retry delay are not checked by `Validate`
(see the counterexample), and the pipeline constructor performs no
rejection either — it silently replaces non-positive values, always
yielding positive pipeline parameters. -/
theorem validate_rejects_nonpositive_interval_and_batch (c : Config) :
    (c.Global.PollInterval.Duration ≤ 0 →
      ∃ errs, c.Validate = some errs ∧
        ({ Field := "global.poll_interval", Message := "must be positive" } :
          ValidationError) ∈ errs) ∧
    (c.Global.BatchSize ≤ 0 →
      ∃ errs, c.Validate = some errs ∧
        ({ Field := "global.batch_size", Message := "must be positive" } :
          ValidationError) ∈ errs) ∧
    (∀ pcfg : PipelineConfig,
      0 < (NewPipeline pcfg).batchSize ∧ 0 < (NewPipeline pcfg).retryAttempts ∧
      0 < (NewPipeline pcfg).retryDelay ∧ 0 < (NewPipeline pcfg).flushInterval) := by
  refine ⟨?_, ?_, ?_⟩
  · intro h
    exact validate_some_of_mem_global c _ (mem_validateGlobal_pollInterval c h)
  · intro h
    exact validate_some_of_mem_global c _ (mem_validateGlobal_batchSize c h)
  · intro pcfg
    simp only [NewPipeline, nsPerSecond]
    refine ⟨?_, ?_, ?_, ?_⟩ <;> split_ifs <;> omega

/-- Witness for the amended C1 at a concrete configuration with zero poll
interval and zero batch size. -/
theorem validate_rejects_nonpositive_interval_and_batch_witness :
    (∃ errs, cfgNonPositive.Validate = some errs ∧
      ({ Field := "global.batch_size", Message := "must be positive" } :
        ValidationError) ∈ errs) := by
  have h := validate_rejects_nonpositive_interval_and_batch cfgNonPositive
  exact h.2.1 (by decide)

/-- C6: a monitor with zero registered backends and echo mode disabled
fails fast: `Run` returns a non-nil error with an empty event trace — no
backend initialisation, no collector call, no polling — and the statistics
untouched. -/
theorem run_zero_backends_fails_fast (m : Monitor)
    (hb : m.backends = []) (he : m.echoMode = false) :
    (m.RunModel).error.isSome ∧ (m.RunModel).events = [] ∧
    (m.RunModel).stats = m.stats := by
  simp [Monitor.RunModel, Monitor.addBackends, hb, he, NewPipeline]

/-- Witness for C6 at a concrete monitor with no backends. -/
theorem run_zero_backends_fails_fast_witness :
    (noBackendMonitor.RunModel).error.isSome = true ∧
    (noBackendMonitor.RunModel).events = [] := by
  have h := run_zero_backends_fails_fast noBackendMonitor rfl rfl
  exact ⟨h.1, h.2.1⟩

/-- C7: the spec's end-to-end example — the run-once monitor with the
two-point collector, one always-healthy backend and batch size 10 —
invokes the collector exactly once, delivers exactly one batch holding the
2 points to the backend's single (first-attempt) `Write` call, returns no
error without entering the recurring loop, and its statistics afterwards
read totalPolls = 1, successfulPolls = 1, totalPoints = 2. -/
theorem run_once_end_to_end :
    exampleMonitor.RunModel =
      { events := [Event.backendInit "example", Event.collectorCall,
                   Event.wrote "example" 1 [tempMetric, humidityMetric] none,
                   Event.backendClose "example"]
        error := none
        stats := { TotalPolls := 1, SuccessfulPolls := 1, FailedPolls := 0
                   TotalMetrics := 2, LastDuration := 0 } } := by
  rfl

/-- C8: starting from the zero state, after every sequence of `recordPoll`
calls the invariant SuccessfulPolls + FailedPolls = TotalPolls holds; each
`recordPoll` increments TotalPolls by exactly 1 and exactly one of
SuccessfulPolls/FailedPolls according to the success flag, and (for the
non-negative metric counts the monitor passes) leaves all four counters
monotonically non-decreasing. -/
theorem stats_recordPoll_invariant :
    (∀ calls : List (Bool × Int × Int),
      (recordPolls PollStats.zero calls).SuccessfulPolls
        + (recordPolls PollStats.zero calls).FailedPolls
        = (recordPolls PollStats.zero calls).TotalPolls) ∧
    (∀ (s : PollStats) (success : Bool) (count dur : Int), 0 ≤ count →
      (recordPoll s success count dur).TotalPolls = s.TotalPolls + 1 ∧
      ((success = true ∧
          (recordPoll s success count dur).SuccessfulPolls = s.SuccessfulPolls + 1 ∧
          (recordPoll s success count dur).FailedPolls = s.FailedPolls) ∨
        (success = false ∧
          (recordPoll s success count dur).SuccessfulPolls = s.SuccessfulPolls ∧
          (recordPoll s success count dur).FailedPolls = s.FailedPolls + 1)) ∧
      s.TotalPolls ≤ (recordPoll s success count dur).TotalPolls ∧
      s.SuccessfulPolls ≤ (recordPoll s success count dur).SuccessfulPolls ∧
      s.FailedPolls ≤ (recordPoll s success count dur).FailedPolls ∧
      s.TotalMetrics ≤ (recordPoll s success count dur).TotalMetrics) := by
  constructor
  · have key : ∀ (calls : List (Bool × Int × Int)) (s : PollStats),
        s.SuccessfulPolls + s.FailedPolls = s.TotalPolls →
        (recordPolls s calls).SuccessfulPolls + (recordPolls s calls).FailedPolls
          = (recordPolls s calls).TotalPolls := by
      intro calls
      induction calls with
      | nil => intro s h; simpa [recordPolls] using h
      | cons c rest ih =>
        intro s h
        have hstep : recordPolls s (c :: rest)
            = recordPolls (recordPoll s c.1 c.2.1 c.2.2) rest := by
          simp [recordPolls]
        rw [hstep]
        apply ih
        cases hc : c.1 <;> simp [recordPoll] <;> omega
    exact fun calls => key calls PollStats.zero (by decide)
  · intro s success count dur hc
    cases success <;> simp [recordPoll] <;> omega

/-- Witness for C8: one successful poll with 5 points from the zero
state. -/
theorem stats_recordPoll_invariant_witness :
    (recordPoll PollStats.zero true 5 100).TotalPolls
        = PollStats.zero.TotalPolls + 1 ∧
    PollStats.zero.TotalMetrics ≤ (recordPoll PollStats.zero true 5 100).TotalMetrics := by
  have h := stats_recordPoll_invariant.2 PollStats.zero true 5 100 (by decide)
  exact ⟨h.1, h.2.2.2.2.2⟩

/-- C9: a reload request is never fatal and is atomic: with no reload
source configured (no reload function, empty config path) `handleReload`
leaves the monitor state — configuration, ticker interval and log level —
unchanged, and when re-reading the configuration fails it likewise leaves
the whole previous state in effect. -/
theorem handleReload_never_fatal_atomic
    (reloadFn : Option (String → Except String Config))
    (loadConfig : String → Except String Config) (cfgPath : String) (st : ReloadState) :
    (reloadFn = none → cfgPath = "" →
      handleReload reloadFn loadConfig cfgPath st = st) ∧
    (∀ e, reloadSource reloadFn loadConfig cfgPath = some (Except.error e) →
      handleReload reloadFn loadConfig cfgPath st = st) := by
  constructor
  · intro h1 h2
    simp [handleReload, reloadSource, h1, h2]
  · intro e he
    simp [handleReload, he]

/-- Witness for C9: a reload with neither reload function nor config path
leaves a concrete state untouched. -/
theorem handleReload_never_fatal_atomic_witness :
    handleReload none (fun _ => Except.error "parse failure") "" reloadStateExample
      = reloadStateExample :=
  (handleReload_never_fatal_atomic none (fun _ => Except.error "parse failure") ""
    reloadStateExample).1 rfl rfl

/-- C10: `NewPipeline` never fails: every non-positive BatchSize,
FlushInterval, RetryAttempts or RetryDelay is silently replaced by the
defaults 10, 10 s, 3 and 1 s respectively (positive values are kept), a
nil logger by the default logger, so every constructed pipeline has
strictly positive batch size, flush interval, retry attempts and retry
delay. -/
theorem newPipeline_never_fails_defaults (cfg : PipelineConfig) :
    (0 < (NewPipeline cfg).batchSize ∧ 0 < (NewPipeline cfg).flushInterval ∧
      0 < (NewPipeline cfg).retryAttempts ∧ 0 < (NewPipeline cfg).retryDelay) ∧
    (cfg.BatchSize ≤ 0 → (NewPipeline cfg).batchSize = 10) ∧
    (0 < cfg.BatchSize → (NewPipeline cfg).batchSize = cfg.BatchSize) ∧
    (cfg.FlushInterval ≤ 0 → (NewPipeline cfg).flushInterval = 10 * nsPerSecond) ∧
    (0 < cfg.FlushInterval → (NewPipeline cfg).flushInterval = cfg.FlushInterval) ∧
    (cfg.RetryAttempts ≤ 0 → (NewPipeline cfg).retryAttempts = 3) ∧
    (0 < cfg.RetryAttempts → (NewPipeline cfg).retryAttempts = cfg.RetryAttempts) ∧
    (cfg.RetryDelay ≤ 0 → (NewPipeline cfg).retryDelay = nsPerSecond) ∧
    (0 < cfg.RetryDelay → (NewPipeline cfg).retryDelay = cfg.RetryDelay) ∧
    (cfg.Logger = none → (NewPipeline cfg).logger = Logger.defaultLogger) := by
  refine ⟨?_, ?_, ?_, ?_, ?_, ?_, ?_, ?_, ?_, ?_⟩
  · simp only [NewPipeline, nsPerSecond]
    refine ⟨?_, ?_, ?_, ?_⟩ <;> split_ifs <;> omega
  · intro h; simp [NewPipeline, h]
  · intro h; simp only [NewPipeline]; rw [if_neg (by omega)]
  · intro h; simp [NewPipeline, h]
  · intro h; simp only [NewPipeline]; rw [if_neg (by omega)]
  · intro h; simp [NewPipeline, h]
  · intro h; simp only [NewPipeline]; rw [if_neg (by omega)]
  · intro h; simp [NewPipeline, h]
  · intro h; simp only [NewPipeline]; rw [if_neg (by omega)]
  · intro h; simp [NewPipeline, h]

/-- Witness for C10 at the all-zero configuration: every parameter falls
back to its default. -/
theorem newPipeline_never_fails_defaults_witness :
    0 < (NewPipeline zeroPipelineConfig).batchSize ∧
    (NewPipeline zeroPipelineConfig).retryAttempts = 3 := by
  have h := newPipeline_never_fails_defaults zeroPipelineConfig
  exact ⟨h.1.1, h.2.2.2.2.2.1 (by decide)⟩

end GoMonitor
